import Mathlib

/-!
Verification of the VE.Bus protocol engine (vebus_handler.cpp /
vebus_messages.h): a shallow embedding of the frame model, checksum and
byte-stuffing routines, the command queue retry policy, the dispatch of
received frames into the device state, staleness, statistics and the
initialization guards of the public API.

Bytes are modelled as `Nat` with explicit `% 256` where the C code's
`uint8_t` arithmetic wraps; 32-bit tick counters as `Nat` with explicit
`% 2^32`; the C `float` fields are modelled over `ℚ` (none of the
verified properties depends on floating-point rounding).
-/

namespace VeBus

/-! ## Protocol constants (vebus_handler.h / vebus_messages.h) -/

def VEBUS_SYNC_BYTE : Nat := 0xFF
def VEBUS_MK3_HEADER1 : Nat := 0x98
def VEBUS_MK3_HEADER2 : Nat := 0xF7
def VEBUS_MK3_DATA_FRAME : Nat := 0xFE
def VEBUS_MK3_END_FRAME : Nat := 0xFF
def VEBUS_MK3_STUFF_BYTE : Nat := 0xFA
def VEBUS_MAX_RETRY_COUNT : Nat := 3
def VEBUS_MK3_MAX_DATA_SIZE : Nat := 120
def VEBUS_FRAME_SIZE : Nat := 128
def VEBUS_QUEUE_SIZE : Nat := 10

/-- Wrapping `uint8_t` subtraction: `a - b` in C on unsigned bytes. -/
def byteSub (a b : Nat) : Nat := (a % 256 + 256 - b % 256) % 256

/-! ## Byte stuffing (VeBusHandler::commandReplaceFAtoFF, vebus_handler.cpp
lines 575-589): every input byte `c >= 0xFA` becomes the two bytes
`VEBUS_MK3_STUFF_BYTE, 0x70 | (c & 0x0F)`; other bytes pass through. -/

def commandReplaceFAtoFF : List Nat → List Nat
  | [] => []
  | c :: rest =>
      if 0xFA ≤ c then
        VEBUS_MK3_STUFF_BYTE :: (0x70 ||| (c % 16)) :: commandReplaceFAtoFF rest
      else
        c :: commandReplaceFAtoFF rest

/-! ## Receive-path destuffing (the loop of VeBusHandler::parseMk3Frame,
vebus_handler.cpp lines 385-403), over the region between the 4-byte MK3
header and the end-of-frame marker. A `0xFA` that still has a byte after
it inside the region (`i < rxBufferPos - 2`) consumes the next byte `X`
and reconstructs `0xFA + (X & 0x0F)` when `0x70 <= X <= 0x7F`, else
`X + 0x80`; both stores go into a `uint8_t`, hence the `% 256`. A `0xFA`
that is the last region byte is kept literally. -/

def mk3Destuff : List Nat → List Nat
  | [] => []
  | b :: rest =>
      if b = VEBUS_MK3_STUFF_BYTE then
        match rest with
        | [] => [b]
        | x :: rest2 =>
            (if 0x70 ≤ x ∧ x ≤ 0x7F then (0xFA + (x % 16)) % 256
             else (x + 0x80) % 256) :: mk3Destuff rest2
      else
        b :: mk3Destuff rest

/-- Destuffed data as parseMk3Frame stores it: the destuffing loop keeps
appending only while `destuffedLength < VEBUS_FRAME_SIZE` (128). -/
def mk3DestuffCapped (l : List Nat) : List Nat :=
  (mk3Destuff l).take VEBUS_FRAME_SIZE

/-! ## Frame model (struct VeBusFrame, vebus_messages.h lines 116-192).
`data` models the 120-byte `uint8_t data[VEBUS_MK3_MAX_DATA_SIZE]` array:
entries the list does not hold read as 0 (the constructor memsets the
array), and every read is reduced `% 256` as befits `uint8_t` storage. -/

structure VeBusFrame where
  sync : Nat
  address : Nat
  command : Nat
  length : Nat
  data : List Nat
  checksum : Nat
  frameNumber : Nat
  isMk3Frame : Bool
deriving DecidableEq, Repr

/-- Default-constructed frame (VeBusFrame constructor, lines 128-137). -/
def VeBusFrame.default : VeBusFrame :=
  { sync := VEBUS_SYNC_BYTE, address := 0, command := 0, length := 0,
    data := [], checksum := 0, frameNumber := 0, isMk3Frame := false }

/-- An indexed read of the `data` array as a `uint8_t` value. -/
def VeBusFrame.byte (f : VeBusFrame) (i : Nat) : Nat := f.data.getD i 0 % 256

/-- Payload bytes the MK2 checksum loop visits:
`for (int i = 0; i < length && i < VEBUS_MK3_MAX_DATA_SIZE; i++)`. -/
def VeBusFrame.mk2PayloadBytes (f : VeBusFrame) : List Nat :=
  (List.range (min f.length VEBUS_MK3_MAX_DATA_SIZE)).map f.byte

/-- MK2 checksum value (VeBusFrame::calculateChecksumMk2, vebus_messages.h
lines 140-145): start from 0x55 and subtract sync, address, command,
length and each visited payload byte, in `uint8_t` arithmetic. -/
def mk2ChecksumCalc (f : VeBusFrame) : Nat :=
  ([f.sync, f.address, f.command, f.length] ++ f.mk2PayloadBytes).foldl byteSub 0x55

/-- MK2 checksum validation (VeBusFrame::isChecksumValidMk2, vebus_messages.h
lines 168-174): recompute the same value and compare to the stored byte. -/
def isChecksumValidMk2 (f : VeBusFrame) : Bool :=
  mk2ChecksumCalc f == f.checksum

/-- Checksum formula as the spec words it (spec §4.1, Simple variant):
`0x55 − Σ(address, command, length, payload bytes)` mod 256 — the sync
byte is absent from the subtracted sum. Kept for comparison with
`mk2ChecksumCalc`, which is taken from the source. -/
def mk2ChecksumSpec (f : VeBusFrame) : Nat :=
  byteSub 0x55 (f.address + f.command + f.length + f.mk2PayloadBytes.sum)

/-! ## MK3 checksum with checked indexing (VeBusFrame::calculateChecksumMk3,
vebus_messages.h lines 148-157, and isChecksumValidMk3, lines 177-183).
The C loops run `for (int i = 2; i < length + 4; i++)` and read
`data[i - 4]` with `int` index arithmetic; the embedding indexes through
`mk3DataGet?`, which returns `none` exactly when the index falls outside
the 120-entry `data` array. -/

def mk3DataGet? (d : List Nat) (i : Int) : Option Nat :=
  if 0 ≤ i ∧ i < (VEBUS_MK3_MAX_DATA_SIZE : Int) then
    some (d.getD i.toNat 0 % 256)
  else
    none

/-- The loop of calculateChecksumMk3: `checksum -= data[i - 4]` for
`i = 2 .. length + 3`, propagating an out-of-bounds read as `none`. -/
def mk3ChecksumLoop (f : VeBusFrame) (i : Nat) (cs : Nat) : Option Nat :=
  if i < f.length + 4 then
    match mk3DataGet? f.data ((i : Int) - 4) with
    | none => none
    | some b => mk3ChecksumLoop f (i + 1) (byteSub cs b)
  else
    some cs
termination_by f.length + 4 - i

/-- MK3 checksum value with the `>= 0xFB` exception applied
(`checksum = (checksum - 0xFA) | 0x70`), or `none` on out-of-bounds. -/
def calculateChecksumMk3? (f : VeBusFrame) : Option Nat :=
  (mk3ChecksumLoop f 2 1).map fun cs =>
    if 0xFB ≤ cs then (cs - 0xFA) ||| 0x70 else cs

/-- The loop of isChecksumValidMk3: `cs += data[i - 4]` for
`i = 2 .. length + 3`, then `cs == 0`; `none` on out-of-bounds. -/
def mk3ValidLoop (f : VeBusFrame) (i : Nat) (cs : Nat) : Option Nat :=
  if i < f.length + 4 then
    match mk3DataGet? f.data ((i : Int) - 4) with
    | none => none
    | some b => mk3ValidLoop f (i + 1) ((cs + b) % 256)
  else
    some cs
termination_by f.length + 4 - i

def isChecksumValidMk3? (f : VeBusFrame) : Option Bool :=
  (mk3ValidLoop f 2 0).map fun cs => cs == 0

/-! ## Outbound MK3 checksum append (VeBusHandler::appendChecksum,
vebus_handler.cpp lines 591-609): over the assembled buffer, compute
`cs = 1 - Σ buf[2..]` in `uint8_t` arithmetic; when `cs >= 0xFB` append
`VEBUS_MK3_STUFF_BYTE, cs - 0xFA`, else append `cs`; then append the end
marker. -/

def mk3OutChecksum (buf : List Nat) : Nat :=
  (buf.drop 2).foldl byteSub 1

def appendChecksum (buf : List Nat) : List Nat :=
  let cs := mk3OutChecksum buf
  if 0xFB ≤ cs then
    buf ++ [VEBUS_MK3_STUFF_BYTE, cs - 0xFA, VEBUS_MK3_END_FRAME]
  else
    buf ++ [cs, VEBUS_MK3_END_FRAME]

/-- Checksum append as the spec words it (spec §4.1, Extended variant):
a checksum `>= 0xFB` "must itself be stuffed", i.e. escaped as
`ESCAPE_MARKER, 0x70 | (cs & 0x0F)`. Kept for comparison with
`appendChecksum`, which is taken from the source. -/
def appendChecksumSpec (buf : List Nat) : List Nat :=
  let cs := mk3OutChecksum buf
  if 0xFB ≤ cs then
    buf ++ [VEBUS_MK3_STUFF_BYTE, 0x70 ||| (cs % 16), VEBUS_MK3_END_FRAME]
  else
    buf ++ [cs, VEBUS_MK3_END_FRAME]

/-! ## Decoded message structures and the device state
(vebus_messages.h lines 195-343). The C `float` fields are modelled
over `ℚ`; the arithmetic below is exact, so no verified property
depends on `float` rounding. -/

structure VeBusDcInfo where
  dcVoltage : ℚ
  dcCurrent : ℚ
  batteryAh : ℚ
  status : Nat
  errorCode : Nat
deriving DecidableEq, Repr

/-- VeBusDcInfo::fromFrame (vebus_messages.h lines 202-211): guarded on
`command == 0x02 && length >= 8`; little-endian 16-bit fields scaled by
1/100 resp. 1/10, with bit 7 of `data[3]` negating the current. -/
def VeBusDcInfo.fromFrame (d : VeBusDcInfo) (f : VeBusFrame) : VeBusDcInfo :=
  if f.command = 0x02 ∧ 8 ≤ f.length then
    let cur : ℚ := ((f.byte 3 * 256 + f.byte 2 : Nat) : ℚ) / 10
    { dcVoltage := ((f.byte 1 * 256 + f.byte 0 : Nat) : ℚ) / 100,
      dcCurrent := if f.byte 3 &&& 0x80 ≠ 0 then -cur else cur,
      batteryAh := ((f.byte 5 * 256 + f.byte 4 : Nat) : ℚ) / 10,
      status := f.byte 6,
      errorCode := f.byte 7 }
  else
    d

structure VeBusAcInfo where
  acVoltage : ℚ
  acCurrent : ℚ
  acFrequency : ℚ
  acPower : Int
  powerFactor : ℚ
  acStatus : Nat
deriving DecidableEq, Repr

/-- VeBusAcInfo::fromFrame (vebus_messages.h lines 223-232): guarded on
`command == 0x03 && length >= 12`; `acPower` is stored into an `int16_t`,
modelled by recentering the 16-bit value at 32768. -/
def VeBusAcInfo.fromFrame (a : VeBusAcInfo) (f : VeBusFrame) : VeBusAcInfo :=
  if f.command = 0x03 ∧ 12 ≤ f.length then
    let p : Nat := f.byte 7 * 256 + f.byte 6
    { acVoltage := ((f.byte 1 * 256 + f.byte 0 : Nat) : ℚ) / 100,
      acCurrent := ((f.byte 3 * 256 + f.byte 2 : Nat) : ℚ) / 100,
      acFrequency := ((f.byte 5 * 256 + f.byte 4 : Nat) : ℚ) / 100,
      acPower := if 32768 ≤ p then (p : Int) - 65536 else (p : Int),
      powerFactor := ((f.byte 8 : Nat) : ℚ) / 100,
      acStatus := f.byte 9 }
  else
    a

structure VeBusLedStatus where
  ledStatus : Nat
  switchRegister : Nat
  ledOn : Bool
  ledBlink : Bool
  inputCurrentLimit : ℚ
  inputConfig : Nat
  mainLed : Nat
  absorbLed : Nat
  bulkLed : Nat
  floatLed : Nat
  invertLed : Nat
  overloadLed : Nat
  lowBatteryLed : Nat
  temperatureLed : Nat
deriving DecidableEq, Repr

/-- VeBusLedStatus::fromFrame (vebus_messages.h lines 254-263): guarded on
`command == 0x04 && length >= 6`; the individual LED fields are left
untouched by this decoder. -/
def VeBusLedStatus.fromFrame (l : VeBusLedStatus) (f : VeBusFrame) : VeBusLedStatus :=
  if f.command = 0x04 ∧ 6 ≤ f.length then
    { l with
      ledStatus := f.byte 0,
      switchRegister := f.byte 1,
      ledOn := f.byte 2 &&& 0x01 ≠ 0,
      ledBlink := f.byte 2 &&& 0x02 ≠ 0,
      inputCurrentLimit := ((f.byte 3 : Nat) : ℚ) / 10,
      inputConfig := f.byte 4 }
  else
    l

/-- Complete device state (struct VeBusDeviceState, vebus_messages.h
lines 319-343). Times are `millis()` values, i.e. `uint32_t` ticks. -/
structure VeBusDeviceState where
  dcInfo : VeBusDcInfo
  acInfo : VeBusAcInfo
  ledStatus : VeBusLedStatus
  lastUpdateTime : Nat
  isOnline : Bool
  communicationErrors : Nat
  switchState : Nat
deriving DecidableEq, Repr

/-- VeBusDeviceState::updateTimestamp (vebus_messages.h lines 335-338):
`lastUpdateTime = millis(); isOnline = true;`. -/
def VeBusDeviceState.updateTimestamp (s : VeBusDeviceState) (now : Nat) : VeBusDeviceState :=
  { s with lastUpdateTime := now, isOnline := true }

/-- Wrapping `uint32_t` subtraction, as in `millis() - lastUpdateTime`. -/
def u32sub (a b : Nat) : Nat := (a % 2 ^ 32 + 2 ^ 32 - b % 2 ^ 32) % 2 ^ 32

/-- VeBusDeviceState::isStale (vebus_messages.h lines 340-342):
`(millis() - lastUpdateTime) > timeoutMs` with the default
`timeoutMs = 5000`; both call sites use the default. -/
def VeBusDeviceState.isStale (s : VeBusDeviceState) (now : Nat) : Bool :=
  5000 < u32sub now s.lastUpdateTime

/-- VeBusHandler::isDeviceOnline (vebus_handler.cpp lines 762-764):
`deviceState.isOnline && !deviceState.isStale()`. -/
def isDeviceOnline (s : VeBusDeviceState) (now : Nat) : Bool :=
  s.isOnline && !(s.isStale now)

/-! ## Dispatch of a received frame (VeBusHandler::processReceivedFrame,
vebus_handler.cpp lines 611-649). Under the mutex the handler first calls
`deviceState.updateTimestamp()`, then switches on `frame.command`:
`0x02` updates the DC info, `0x03` the AC info, `0x04` the LED status,
`VEBUS_CMD_SET_ESS_POWER` (0x37) clears the single awaiting-response
slot when the pending command is also the ESS power command, and any
other command only prints a debug line. -/

structure HandlerRxState where
  device : VeBusDeviceState
  waitingForResponse : Bool
  pendingCommandCmd : Nat
deriving DecidableEq, Repr

def VEBUS_CMD_SET_ESS_POWER : Nat := 0x37

def processReceivedFrame (s : HandlerRxState) (f : VeBusFrame) (now : Nat) :
    HandlerRxState :=
  let d := s.device.updateTimestamp now
  if f.command = 0x02 then
    { s with device := { d with dcInfo := d.dcInfo.fromFrame f } }
  else if f.command = 0x03 then
    { s with device := { d with acInfo := d.acInfo.fromFrame f } }
  else if f.command = 0x04 then
    { s with device := { d with ledStatus := d.ledStatus.fromFrame f } }
  else if f.command = VEBUS_CMD_SET_ESS_POWER then
    { s with device := d,
             waitingForResponse :=
               if s.waitingForResponse && (s.pendingCommandCmd == VEBUS_CMD_SET_ESS_POWER)
               then false else s.waitingForResponse }
  else
    { s with device := d }

/-! ## Statistics (struct VeBusStatistics, vebus_handler.h lines 57-75)
and their transitions, one constructor per mutation site of
vebus_handler.cpp. -/

structure VeBusStatistics where
  framesSent : Nat
  framesReceived : Nat
  framesDropped : Nat
  checksumErrors : Nat
  timeoutErrors : Nat
  retransmissions : Nat
deriving DecidableEq, Repr

/-- VeBusStatistics::reset (vebus_handler.h lines 66-74). -/
def VeBusStatistics.reset : VeBusStatistics :=
  { framesSent := 0, framesReceived := 0, framesDropped := 0,
    checksumErrors := 0, timeoutErrors := 0, retransmissions := 0 }

/-- Statistics mutation sites of vebus_handler.cpp:
`sendSuccess` — a frame written out (`stats.framesSent++`, lines 182, 241,
1016…); `sendFailRetry` — a queued send failed with `retryCount <
VEBUS_MAX_RETRY_COUNT` (lines 190-197: `framesDropped++` then re-enqueue
and `retransmissions++`); `sendFailDrop` — a queued send failed with
retries exhausted (line 190 only); `frameReceived` — a valid frame
dispatched (line 176); `parseError` — a completed frame failed
parsing/checksum (line 333); `responseTimeout` — the awaiting slot
expired (line 653, with `responseRetransmit` for the re-enqueue of lines
660-666); `rxOverflow`/`rxStaleTimeout` — receive-buffer overflow
(line 312) resp. a 100 ms-stale partial frame (line 344), both
`framesDropped++`. -/
inductive StatsEvent where
  | sendSuccess
  | sendFailRetry
  | sendFailDrop
  | frameReceived
  | parseError
  | responseTimeout
  | responseRetransmit
  | rxOverflow
  | rxStaleTimeout
deriving DecidableEq, Repr

def statsStep (s : VeBusStatistics) : StatsEvent → VeBusStatistics
  | .sendSuccess => { s with framesSent := s.framesSent + 1 }
  | .sendFailRetry =>
      { s with framesDropped := s.framesDropped + 1,
               retransmissions := s.retransmissions + 1 }
  | .sendFailDrop => { s with framesDropped := s.framesDropped + 1 }
  | .frameReceived => { s with framesReceived := s.framesReceived + 1 }
  | .parseError => { s with checksumErrors := s.checksumErrors + 1 }
  | .responseTimeout => { s with timeoutErrors := s.timeoutErrors + 1 }
  | .responseRetransmit => { s with retransmissions := s.retransmissions + 1 }
  | .rxOverflow => { s with framesDropped := s.framesDropped + 1 }
  | .rxStaleTimeout => { s with framesDropped := s.framesDropped + 1 }

/-- A statistics state reached from `reset` through the code's mutation
sites. -/
def statsRun (events : List StatsEvent) : VeBusStatistics :=
  events.foldl statsStep VeBusStatistics.reset

/-- VeBusHandler::getCommunicationQuality (vebus_handler.cpp lines
770-776): `0.0` when `framesSent + framesReceived == 0`, else
`1 - errors / totalFrames` with
`errors = checksumErrors + timeoutErrors + framesDropped`. -/
def getCommunicationQuality (s : VeBusStatistics) : ℚ :=
  let totalFrames := s.framesSent + s.framesReceived
  if totalFrames = 0 then 0
  else 1 - ((s.checksumErrors + s.timeoutErrors + s.framesDropped : Nat) : ℚ)
             / (totalFrames : ℚ)

/-! ## Command queue and retry policy (VeBusHandler::communicationTask,
vebus_handler.cpp lines 180-199). Each 10 ms cycle pops at most one
queued item; on send success `framesSent++` (and the item may move to the
awaiting slot); on failure `framesDropped++` and, when
`retryCount < VEBUS_MAX_RETRY_COUNT`, the item is re-enqueued at the back
with `retryCount + 1` and `retransmissions++`. -/

structure VeBusCommandItem where
  command : Nat
  retryCount : Nat
  waitForResponse : Bool
deriving DecidableEq, Repr

structure QueueState where
  queue : List VeBusCommandItem
  stats : VeBusStatistics
deriving DecidableEq, Repr

def queueCycle (sendOk : Bool) (s : QueueState) : QueueState :=
  match s.queue with
  | [] => s
  | item :: rest =>
      if sendOk then
        { queue := rest, stats := statsStep s.stats .sendSuccess }
      else if item.retryCount < VEBUS_MAX_RETRY_COUNT then
        { queue := rest ++ [{ item with retryCount := item.retryCount + 1 }],
          stats := statsStep s.stats .sendFailRetry }
      else
        { queue := rest, stats := statsStep s.stats .sendFailDrop }

/-- Iterated cycles in which every send attempt fails. -/
def runFailCycles : Nat → QueueState → QueueState
  | 0, s => s
  | n + 1, s => runFailCycles n (queueCycle false s)

/-! ## Initialization guards of the public API (vebus_handler.cpp lines
714-760 and 832-1148, vebus_handler.h line 126). `isInitialized()` is
`serial != nullptr`; `begin` sets `serial`, creates the command queue and
returns true, `end` nulls both. The synchronous request/configuration
calls all open with `if (!isInitialized()) return false;`; continuation
past the guard depends on serial traffic and is abstracted by the `rest`
argument. The queue-based `send*Command` calls have no such guard: they
pass `commandQueue` straight to `xQueueSendToBack`, which with a null
handle is a FreeRTOS `configASSERT` failure, modelled as
`Except.error`. -/

structure VeBusHandlerState where
  serialInitialized : Bool
  commandQueue : Option (List VeBusCommandItem)
deriving DecidableEq, Repr

/-- Handler state before `begin()` succeeds, and again after `end()`:
`serial == nullptr`, `commandQueue == nullptr` (constructor lines 17-29,
`end` lines 115-139). -/
def VeBusHandlerState.uninitialized : VeBusHandlerState :=
  { serialInitialized := false, commandQueue := none }

def isInitialized (h : VeBusHandlerState) : Bool := h.serialInitialized

/-- xQueueSendToBack on the handler's queue handle: a null handle is a
fatal FreeRTOS assertion (`Except.error`); a live queue accepts the item
iff it is not full (`VEBUS_QUEUE_SIZE` slots). -/
def xQueueSendToBack (q : Option (List VeBusCommandItem)) (item : VeBusCommandItem) :
    Except Unit (Bool × List VeBusCommandItem) :=
  match q with
  | none => Except.error ()
  | some items =>
      if items.length < VEBUS_QUEUE_SIZE then Except.ok (true, items ++ [item])
      else Except.ok (false, items)

/-- VeBusHandler::sendEssPowerCommand (vebus_handler.cpp lines 714-725):
no initialization check — the queue item goes straight to
`xQueueSendToBack(commandQueue, ...)`. -/
def sendEssPowerCommand (h : VeBusHandlerState) (targetPower : Int) :
    Except Unit (Bool × List VeBusCommandItem) :=
  xQueueSendToBack h.commandQueue
    { command := VEBUS_CMD_SET_ESS_POWER, retryCount := 0, waitForResponse := true }

/-- VeBusHandler::sendCurrentLimitCommand (lines 727-738), same shape. -/
def sendCurrentLimitCommand (h : VeBusHandlerState) (currentLimit : Nat) :
    Except Unit (Bool × List VeBusCommandItem) :=
  xQueueSendToBack h.commandQueue
    { command := 0x41, retryCount := 0, waitForResponse := true }

/-- VeBusHandler::sendSwitchCommand (lines 740-751), same shape. -/
def sendSwitchCommand (h : VeBusHandlerState) (switchState : Nat) :
    Except Unit (Bool × List VeBusCommandItem) :=
  xQueueSendToBack h.commandQueue
    { command := 0x05, retryCount := 0, waitForResponse := true }

/-- VeBusHandler::sendCustomCommand (lines 753-760), same shape. -/
def sendCustomCommand (h : VeBusHandlerState) (cmd : Nat) (waitForResponse : Bool) :
    Except Unit (Bool × List VeBusCommandItem) :=
  xQueueSendToBack h.commandQueue
    { command := cmd, retryCount := 0, waitForResponse := waitForResponse }

/-! Guarded synchronous operations: each opens with
`if (!isInitialized()) return false;`; what happens past the guard depends
on serial traffic and is abstracted by the `rest` argument. -/

/-- VeBusHandler::requestVersionInfo (vebus_handler.cpp lines 832-861). -/
def requestVersionInfo (h : VeBusHandlerState) (rest : Bool) : Bool :=
  if isInitialized h = false then false else rest

/-- VeBusHandler::requestDeviceStatus (lines 863-892). -/
def requestDeviceStatus (h : VeBusHandlerState) (rest : Bool) : Bool :=
  if isInitialized h = false then false else rest

/-- VeBusHandler::requestErrorInfo (lines 894-929). -/
def requestErrorInfo (h : VeBusHandlerState) (rest : Bool) : Bool :=
  if isInitialized h = false then false else rest

/-- VeBusHandler::requestWarningInfo (lines 931-961). -/
def requestWarningInfo (h : VeBusHandlerState) (rest : Bool) : Bool :=
  if isInitialized h = false then false else rest

/-- VeBusHandler::requestLedStatus (lines 963-996). -/
def requestLedStatus (h : VeBusHandlerState) (rest : Bool) : Bool :=
  if isInitialized h = false then false else rest

/-- VeBusHandler::setSwitchState (lines 998-1020). -/
def setSwitchState (h : VeBusHandlerState) (rest : Bool) : Bool :=
  if isInitialized h = false then false else rest

/-- VeBusHandler::resetDevice (lines 1022-1044). -/
def resetDevice (h : VeBusHandlerState) (rest : Bool) : Bool :=
  if isInitialized h = false then false else rest

/-- VeBusHandler::clearErrors (lines 1046-1066). -/
def clearErrors (h : VeBusHandlerState) (rest : Bool) : Bool :=
  if isInitialized h = false then false else rest

/-- VeBusHandler::enableAutoRestart (lines 1068-1088). -/
def enableAutoRestart (h : VeBusHandlerState) (rest : Bool) : Bool :=
  if isInitialized h = false then false else rest

/-- VeBusHandler::setVoltageRange (lines 1090-1118). -/
def setVoltageRange (h : VeBusHandlerState) (rest : Bool) : Bool :=
  if isInitialized h = false then false else rest

/-- VeBusHandler::setFrequencyRange (lines 1120-1148). -/
def setFrequencyRange (h : VeBusHandlerState) (rest : Bool) : Bool :=
  if isInitialized h = false then false else rest

/-! ## Concrete states used by counterexamples and witnesses -/

def demoDcInfo : VeBusDcInfo :=
  { dcVoltage := 0, dcCurrent := 0, batteryAh := 0, status := 0, errorCode := 0 }

def demoAcInfo : VeBusAcInfo :=
  { acVoltage := 0, acCurrent := 0, acFrequency := 0, acPower := 0,
    powerFactor := 0, acStatus := 0 }

def demoLedStatus : VeBusLedStatus :=
  { ledStatus := 0, switchRegister := 0, ledOn := false, ledBlink := false,
    inputCurrentLimit := 0, inputConfig := 0, mainLed := 0, absorbLed := 0,
    bulkLed := 0, floatLed := 0, invertLed := 0, overloadLed := 0,
    lowBatteryLed := 0, temperatureLed := 0 }

/-- Device state never updated: `lastUpdateTime = 0`, offline. -/
def demoFreshDevice : VeBusDeviceState :=
  { dcInfo := demoDcInfo, acInfo := demoAcInfo, ledStatus := demoLedStatus,
    lastUpdateTime := 0, isOnline := false, communicationErrors := 0,
    switchState := 0 }

/-- Device state successfully dispatched at time `T = 0`. -/
def demoOnlineDevice : VeBusDeviceState :=
  { demoFreshDevice with lastUpdateTime := 0, isOnline := true }

/-- Handler receive state awaiting a response to the current-limit command
(0x41, VEBUS_CMD_SET_INPUT_CURRENT), as sendCurrentLimitCommand queues it
with `waitForResponse = true`. -/
def demoAwaitCurrentLimit : HandlerRxState :=
  { device := demoFreshDevice, waitingForResponse := true,
    pendingCommandCmd := 0x41 }

/-- A received frame carrying the current-limit command code 0x41. -/
def demoCurrentLimitFrame : VeBusFrame :=
  { VeBusFrame.default with command := 0x41 }

/-- A received frame with a command code unknown to the dispatch switch. -/
def demoUnknownFrame : VeBusFrame :=
  { VeBusFrame.default with command := 0x99 }

/-! ## Helper lemmas -/

theorem byteSub_byteSub (a b c : Nat) : byteSub (byteSub a b) c = byteSub a (b + c) := by
  unfold byteSub
  omega

theorem byteSub_lt (a b : Nat) : byteSub a b < 256 := by
  unfold byteSub
  omega

theorem foldl_byteSub_eq_byteSub_sum (l : List Nat) :
    ∀ a : Nat, a < 256 → l.foldl byteSub a = byteSub a l.sum := by
  induction l with
  | nil =>
      intro a ha
      unfold byteSub
      simp
      omega
  | cons b t ih =>
      intro a ha
      simp only [List.foldl_cons, List.sum_cons]
      rw [ih (byteSub a b) (byteSub_lt a b), byteSub_byteSub]

/-! ## C1 — stuffing / destuffing round trip -/

set_option maxRecDepth 8000

/-- C1: the claim that destuffing inverts stuffing on every single-byte
payload is false on the code: for bytes below 0xFA the round trip holds,
but each stuffed byte `b ≥ 0xFA` comes back as `(0xFA + (b & 0x0F)) % 256
= b + 10 − 256`; the payload `[0xFA]` round-trips to `[0x04]` and `[0xFF]`
to `[0x09]`, contradicting the destuffing comment "0x70-0x7F -> 0xFA-0xFF"
in parseMk3Frame itself. -/
theorem mk3_stuff_destuff_roundtrip :
    (∀ b : Fin 0xFA, mk3DestuffCapped (commandReplaceFAtoFF [b.1]) = [b.1]) ∧
    mk3DestuffCapped (commandReplaceFAtoFF [0xFA]) = [0x04] ∧
    mk3DestuffCapped (commandReplaceFAtoFF [0xFF]) = [0x09] ∧
    ([0x04] : List Nat) ≠ [0xFA] := by
  decide

/-! ## C2 — Simple (MK2) checksum formula -/

/-- C2 counterexample: on the default-constructed frame (sync 0xFF, all
else zero) the code computes checksum 0x56, not the claimed
`0x55 − Σ(address, command, length, payload) = 0x55`: the code also
subtracts the sync byte. -/
theorem mk2_checksum_claim_counterexample :
    mk2ChecksumCalc VeBusFrame.default = 0x56 ∧
    mk2ChecksumSpec VeBusFrame.default = 0x55 ∧
    (0x56 : Nat) ≠ 0x55 := by
  decide

/-- C2 amended: for every Simple frame the computed checksum is
`0x55 − (sync + address + command + length + Σ visited payload bytes)`
in wrapping byte arithmetic — the sync byte is part of the subtracted
sum — and a received frame is accepted by isChecksumValidMk2 iff its
stored checksum byte equals exactly that value. -/
theorem mk2_checksum_characterization (f : VeBusFrame) :
    mk2ChecksumCalc f =
      byteSub 0x55 (f.sync + f.address + f.command + f.length + f.mk2PayloadBytes.sum) ∧
    (isChecksumValidMk2 f = true ↔ f.checksum = mk2ChecksumCalc f) := by
  constructor
  · unfold mk2ChecksumCalc
    rw [foldl_byteSub_eq_byteSub_sum _ 0x55 (by norm_num)]
    congr 1
    simp [List.sum_append]
    ring
  · unfold isChecksumValidMk2
    rw [beq_iff_eq]
    exact eq_comm

/-! ## C3 — stuffing of an outbound MK3 checksum byte ≥ 0xFB -/

/-- C3 counterexample: for the assembled buffer `[0x98, 0xF7, 0x06]` the
checksum is `1 − 0x06 = 0xFB ≥ 0xFB`; appendChecksum emits the escape
pair `0xFA, 0x01` (`cs − 0xFA`), not the claimed `0xFA, 0x7B`
(`0x70 | (cs & 0x0F)`). -/
theorem append_checksum_claim_counterexample :
    appendChecksum [0x98, 0xF7, 0x06] = [0x98, 0xF7, 0x06, 0xFA, 0x01, 0xFF] ∧
    appendChecksumSpec [0x98, 0xF7, 0x06] = [0x98, 0xF7, 0x06, 0xFA, 0x7B, 0xFF] ∧
    ([0x98, 0xF7, 0x06, 0xFA, 0x01, 0xFF] : List Nat) ≠
      [0x98, 0xF7, 0x06, 0xFA, 0x7B, 0xFF] := by
  decide

/-- C3 amended: for every outbound Extended frame buffer whose computed
checksum is ≥ 0xFB, the encoder appends the two-byte escape
`ESCAPE_MARKER (0xFA), cs − 0xFA` in place of the raw checksum byte, then
the unescaped end marker 0xFF. -/
theorem append_checksum_stuffed_form (buf : List Nat)
    (h : 0xFB ≤ mk3OutChecksum buf) :
    appendChecksum buf =
      buf ++ [VEBUS_MK3_STUFF_BYTE, mk3OutChecksum buf - 0xFA, VEBUS_MK3_END_FRAME] := by
  unfold appendChecksum
  simp [h]

/-- C3 witness: the stuffed form at the concrete buffer `[0x98, 0xF7, 0x06]`
whose checksum 0xFB triggers the escape. -/
theorem append_checksum_stuffed_form_witness :
    appendChecksum [0x98, 0xF7, 0x06] =
      [0x98, 0xF7, 0x06] ++
        [VEBUS_MK3_STUFF_BYTE, mk3OutChecksum [0x98, 0xF7, 0x06] - 0xFA,
         VEBUS_MK3_END_FRAME] :=
  append_checksum_stuffed_form [0x98, 0xF7, 0x06] (by decide)

/-! ## C4 — retry bound for a command that always fails to send -/

/-- C4: a queued command whose every send attempt fails is attempted in
exactly `VEBUS_MAX_RETRY_COUNT + 1 = 4` consecutive cycles — the queue is
still non-empty entering cycles 1 through 4 — and after the 4th cycle it
has disappeared, with `framesDropped = 4` (one per failed attempt) and
`retransmissions = 3` (one per re-enqueue). -/
theorem retry_bound_always_failing (c : Nat) (w : Bool) :
    (runFailCycles 0 (QueueState.mk [⟨c, 0, w⟩] VeBusStatistics.reset)).queue ≠ [] ∧
    (runFailCycles 1 (QueueState.mk [⟨c, 0, w⟩] VeBusStatistics.reset)).queue ≠ [] ∧
    (runFailCycles 2 (QueueState.mk [⟨c, 0, w⟩] VeBusStatistics.reset)).queue ≠ [] ∧
    (runFailCycles 3 (QueueState.mk [⟨c, 0, w⟩] VeBusStatistics.reset)).queue ≠ [] ∧
    runFailCycles 4 (QueueState.mk [⟨c, 0, w⟩] VeBusStatistics.reset) =
      QueueState.mk [] { VeBusStatistics.reset with framesDropped := 4, retransmissions := 3 } := by
  refine ⟨?_, ?_, ?_, ?_, ?_⟩ <;>
    simp [runFailCycles, queueCycle, statsStep, VeBusStatistics.reset,
          VEBUS_MAX_RETRY_COUNT]

/-! ## C5 — response matching for the awaiting-response slot -/

/-- C5 counterexample: with the single awaiting slot holding the
current-limit command (0x41) and a received frame carrying the same
command code 0x41, the slot is NOT cleared — the dispatch switch clears
it only in the `VEBUS_CMD_SET_ESS_POWER` case — contradicting the claimed
command-code-equality matching for every waitForResponse command type. -/
theorem response_match_not_cleared_counterexample :
    (processReceivedFrame demoAwaitCurrentLimit demoCurrentLimitFrame 0).waitingForResponse
      = true ∧
    demoAwaitCurrentLimit.pendingCommandCmd = demoCurrentLimitFrame.command := by
  constructor
  · rfl
  · rfl

/-- C5 amended: the awaiting-response slot is cleared by a received frame
iff the slot is occupied and both the awaiting command's code and the
frame's code equal `VEBUS_CMD_SET_ESS_POWER` (0x37); for every other
awaited command type (current limit, switch, custom) no received frame is
treated as a matching response. -/
theorem response_match_only_ess_power (s : HandlerRxState) (f : VeBusFrame) (now : Nat) :
    (processReceivedFrame s f now).waitingForResponse =
      (s.waitingForResponse &&
        !((s.pendingCommandCmd == VEBUS_CMD_SET_ESS_POWER) &&
          (f.command == VEBUS_CMD_SET_ESS_POWER))) := by
  unfold processReceivedFrame VEBUS_CMD_SET_ESS_POWER
  split_ifs with h1 h2 h3 h4 <;> simp_all

/-! ## C6 — effect of dispatching a decoded frame on the device state -/

/-- C6 counterexample: a frame with the unknown command code 0x99
dispatched at time 42 does NOT leave the device state unchanged: the
dispatch stamps `lastUpdateTime` and sets `online` before switching on
the command, so the never-updated state (lastUpdateTime 0, offline)
becomes (lastUpdateTime 42, online). -/
theorem dispatch_unknown_command_counterexample :
    (processReceivedFrame (HandlerRxState.mk demoFreshDevice false 0)
        demoUnknownFrame 42).device.lastUpdateTime = 42 ∧
    (processReceivedFrame (HandlerRxState.mk demoFreshDevice false 0)
        demoUnknownFrame 42).device.isOnline = true ∧
    demoFreshDevice.lastUpdateTime = 0 ∧
    demoFreshDevice.isOnline = false ∧
    (42 : Nat) ≠ 0 := by
  refine ⟨rfl, rfl, rfl, rfl, by decide⟩

/-- C6 amended: every dispatched frame — unknown command codes included —
stamps `lastUpdateTime = now` and sets `online = true`; beyond that, at
most one of {DC info, AC info, LED status} is updated, selected by
`frame.command` (0x02, 0x03, 0x04), and the remaining device-state
fields are unchanged (the 0x37 switch-ack case touches only the
awaiting-response slot). -/
theorem dispatch_effect (s : HandlerRxState) (f : VeBusFrame) (now : Nat) :
    (processReceivedFrame s f now).device.lastUpdateTime = now ∧
    (processReceivedFrame s f now).device.isOnline = true ∧
    (processReceivedFrame s f now).device.switchState = s.device.switchState ∧
    (processReceivedFrame s f now).device.communicationErrors
      = s.device.communicationErrors ∧
    (processReceivedFrame s f now).device.dcInfo
      = (if f.command = 0x02 then s.device.dcInfo.fromFrame f else s.device.dcInfo) ∧
    (processReceivedFrame s f now).device.acInfo
      = (if f.command = 0x03 then s.device.acInfo.fromFrame f else s.device.acInfo) ∧
    (processReceivedFrame s f now).device.ledStatus
      = (if f.command = 0x04 then s.device.ledStatus.fromFrame f else s.device.ledStatus) := by
  unfold processReceivedFrame VeBusDeviceState.updateTimestamp
  split_ifs with h1 h2 h3 h4 <;> simp_all

/-! ## C7 — staleness of the device state over time -/

/-- C7 counterexample: a device state updated at `T = 0` is still reported
online at exactly `T + 5000`: `isStale` uses the strict comparison
`(now − lastUpdateTime) > 5000`, so the claimed offline-at-`T + threshold`
boundary fails. -/
theorem staleness_boundary_counterexample :
    isDeviceOnline demoOnlineDevice (0 + 5000) = true ∧
    demoOnlineDevice.lastUpdateTime = 0 := by
  constructor
  · rfl
  · rfl

/-- C7 amended: for a device state last dispatched at time `T` (online,
`lastUpdateTime = T`), `isDeviceOnline` is true at time `T` and false at
every time STRICTLY greater than `T + 5000` (within one 32-bit
wraparound of `T`); at exactly `T + 5000` it is still true. -/
theorem staleness_monotone (s : VeBusDeviceState) (T now : Nat)
    (hOn : s.isOnline = true) (hT : s.lastUpdateTime = T)
    (hT32 : T < 4294967296) (hnow32 : now < 4294967296) (hle : T ≤ now) :
    isDeviceOnline s T = true ∧
    isDeviceOnline s (T + 5000) = true ∧
    (5000 < now - T → isDeviceOnline s now = false) := by
  subst hT
  refine ⟨?_, ?_, fun h5 => ?_⟩
  · have h0 : u32sub s.lastUpdateTime s.lastUpdateTime = 0 := by
      unfold u32sub
      omega
    simp [isDeviceOnline, VeBusDeviceState.isStale, h0, hOn]
  · have h0 : u32sub (s.lastUpdateTime + 5000) s.lastUpdateTime = 5000 := by
      unfold u32sub
      omega
    simp [isDeviceOnline, VeBusDeviceState.isStale, h0, hOn]
  · have h0 : u32sub now s.lastUpdateTime = now - s.lastUpdateTime := by
      unfold u32sub
      omega
    simp [isDeviceOnline, VeBusDeviceState.isStale, h0, hOn]
    omega

/-- C7 witness: the staleness behaviour at the concrete update time `T = 0`
and observation time 5001. -/
theorem staleness_monotone_witness :
    isDeviceOnline demoOnlineDevice 0 = true ∧
    isDeviceOnline demoOnlineDevice 5001 = false :=
  ⟨(staleness_monotone demoOnlineDevice 0 5001 rfl rfl (by decide) (by decide)
      (by decide)).1,
   (staleness_monotone demoOnlineDevice 0 5001 rfl rfl (by decide) (by decide)
      (by decide)).2.2 (by decide)⟩

/-! ## C8 — communication quality -/

/-- C8 counterexample: the claimed invariant "quality lies in [0, 1] for
every reachable statistics state" fails: from reset, one successful send
followed by a command whose four send attempts all fail (the retry-bound
scenario) reaches framesSent = 1, framesDropped = 4, where the formula
yields `1 − 4/1 = −3 < 0`. -/
theorem quality_negative_counterexample :
    getCommunicationQuality
      (statsRun [.sendSuccess, .sendFailRetry, .sendFailRetry, .sendFailRetry,
                 .sendFailDrop]) = -3 ∧
    (statsRun [.sendSuccess, .sendFailRetry, .sendFailRetry, .sendFailRetry,
               .sendFailDrop]).framesSent = 1 ∧
    (statsRun [.sendSuccess, .sendFailRetry, .sendFailRetry, .sendFailRetry,
               .sendFailDrop]).framesDropped = 4 ∧
    ¬(0 ≤ (-3 : ℚ)) := by
  refine ⟨?_, rfl, rfl, by norm_num⟩
  norm_num [statsRun, statsStep, VeBusStatistics.reset, getCommunicationQuality]

/-- C8 amended: quality is 0.0 with no traffic, otherwise
`1 − (checksumErrors + timeoutErrors + framesDropped)/(framesSent +
framesReceived)` — in particular 1.0 for 10 sent / 10 received / 0 errors
and 0.75 for 10 sent / 10 received / 5 checksum errors; the value is
always ≤ 1, and it is ≥ 0 whenever the error count does not exceed the
traffic count — but not for every reachable state (see the
counterexample, where it is −3). -/
theorem communication_quality_values :
    getCommunicationQuality VeBusStatistics.reset = 0 ∧
    getCommunicationQuality
      { VeBusStatistics.reset with framesSent := 10, framesReceived := 10 } = 1 ∧
    getCommunicationQuality
      { VeBusStatistics.reset with
        framesSent := 10
        framesReceived := 10
        checksumErrors := 5 } = 3 / 4 ∧
    (∀ s : VeBusStatistics, getCommunicationQuality s ≤ 1) ∧
    (∀ s : VeBusStatistics,
      s.checksumErrors + s.timeoutErrors + s.framesDropped
        ≤ s.framesSent + s.framesReceived →
      0 ≤ getCommunicationQuality s) := by
  refine ⟨by norm_num [getCommunicationQuality, VeBusStatistics.reset],
          by norm_num [getCommunicationQuality, VeBusStatistics.reset],
          by norm_num [getCommunicationQuality, VeBusStatistics.reset],
          fun s => ?_, fun s hle => ?_⟩
  · unfold getCommunicationQuality
    dsimp only
    split_ifs with h
    · norm_num
    · have hnn : (0 : ℚ) ≤
          ((s.checksumErrors + s.timeoutErrors + s.framesDropped : Nat) : ℚ)
            / ((s.framesSent + s.framesReceived : Nat) : ℚ) :=
        div_nonneg (by positivity) (by positivity)
      linarith
  · unfold getCommunicationQuality
    dsimp only
    split_ifs with h
    · norm_num
    · have hpos : (0 : ℚ) < ((s.framesSent + s.framesReceived : Nat) : ℚ) := by
        exact_mod_cast Nat.pos_of_ne_zero h
      have hc : ((s.checksumErrors + s.timeoutErrors + s.framesDropped : Nat) : ℚ)
          ≤ ((s.framesSent + s.framesReceived : Nat) : ℚ) := by
        exact_mod_cast hle
      have hdiv : ((s.checksumErrors + s.timeoutErrors + s.framesDropped : Nat) : ℚ)
          / ((s.framesSent + s.framesReceived : Nat) : ℚ) ≤ 1 :=
        (div_le_one hpos).mpr hc
      linarith

/-! ## C9 — behaviour of the public API before begin() / after end() -/

/-- C9 counterexample: sendEssPowerCommand on the uninitialized handler
does not return false: it performs no initialization check and hands the
null queue handle to xQueueSendToBack, a fatal FreeRTOS assertion
(modelled `Except.error`), never the claimed synchronous boolean
failure. -/
theorem send_uninitialized_counterexample :
    sendEssPowerCommand VeBusHandlerState.uninitialized 100 = Except.error () ∧
    ∀ q : List VeBusCommandItem,
      sendEssPowerCommand VeBusHandlerState.uninitialized 100 ≠
        Except.ok (false, q) := by
  refine ⟨rfl, fun q hq => ?_⟩
  rw [show sendEssPowerCommand VeBusHandlerState.uninitialized 100
        = Except.error () from rfl] at hq
  exact Except.noConfusion hq

/-- C9 amended: invoked before a successful begin() or after end()
(serial and command queue both null), every synchronous
request/configuration operation returns false without sending anything
and without a fatal error; the four queue-based command submissions,
however, perform no initialization check and pass the null queue handle
straight to the queue primitive — a fatal FreeRTOS assertion, not a
boolean failure. -/
theorem api_uninitialized_behaviour (rest : Bool) (p : Int) (cl ss cc : Nat)
    (w : Bool) :
    requestVersionInfo VeBusHandlerState.uninitialized rest = false ∧
    requestDeviceStatus VeBusHandlerState.uninitialized rest = false ∧
    requestErrorInfo VeBusHandlerState.uninitialized rest = false ∧
    requestWarningInfo VeBusHandlerState.uninitialized rest = false ∧
    requestLedStatus VeBusHandlerState.uninitialized rest = false ∧
    setSwitchState VeBusHandlerState.uninitialized rest = false ∧
    resetDevice VeBusHandlerState.uninitialized rest = false ∧
    clearErrors VeBusHandlerState.uninitialized rest = false ∧
    enableAutoRestart VeBusHandlerState.uninitialized rest = false ∧
    setVoltageRange VeBusHandlerState.uninitialized rest = false ∧
    setFrequencyRange VeBusHandlerState.uninitialized rest = false ∧
    sendEssPowerCommand VeBusHandlerState.uninitialized p = Except.error () ∧
    sendCurrentLimitCommand VeBusHandlerState.uninitialized cl = Except.error () ∧
    sendSwitchCommand VeBusHandlerState.uninitialized ss = Except.error () ∧
    sendCustomCommand VeBusHandlerState.uninitialized cc w = Except.error () := by
  exact ⟨rfl, rfl, rfl, rfl, rfl, rfl, rfl, rfl, rfl, rfl, rfl, rfl, rfl, rfl, rfl⟩

/-! ## C10 — bounds of the MK3 checksum loops -/

/-- C10: the claim that every index `i − 4` of the MK3 checksum loops
satisfies `0 ≤ i − 4 < 120` is false for EVERY frame: both loops start at
`i = 2`, so their first two iterations read `data[-2]` and `data[-1]`
(in the C struct layout, the `command` and `length` members), and the
embedded total indexing aborts with an out-of-bounds error on every
call. -/
theorem mk3_checksum_loops_out_of_bounds (f : VeBusFrame) :
    calculateChecksumMk3? f = none ∧ isChecksumValidMk3? f = none := by
  constructor
  · unfold calculateChecksumMk3?
    rw [mk3ChecksumLoop]
    rw [if_pos (by omega)]
    norm_num [mk3DataGet?]
  · unfold isChecksumValidMk3?
    rw [mk3ValidLoop]
    rw [if_pos (by omega)]
    norm_num [mk3DataGet?]

end VeBus
